import Mathlib

/-!
Verification of `butter-video` (src/main.rs) against its specification.

The development shallowly embeds the three parts of the program the claims
are about:

* `yuv_to_rgb_u8` — the colorimetric converter (src/main.rs lines 268-325),
  modelled over abstract planes (`PlaneModel`, a width/height plus a sample
  accessor) and parametrised by the external `yuv` crate's matrix converter
  (`toRGB`) and by the Rust sample container width (`tIs8`, the value of
  `size_of::<T>() == 1`).  Machine integers are `Nat` with the `as u8`
  truncation written as `% 256`.
* `run_metric` — the sequence aggregator (lines 77-205), modelled over two
  lists of decoded frames with the per-pair comparison abstracted as a
  function `cmp`; scores are modelled as `ℚ`.  The four-way bit-depth match
  of the Rust loop is `dispatchWidths`.
* `compare_frame_fs` — the filesystem behaviour of `compare_frame`
  (lines 207-266): which temporary artifacts exist after the call on each
  exit path.  A Rust `unwrap` panic is the `CompareExit.panicked` outcome;
  the filesystem is a list of existing paths.
-/

namespace ButterVideo

/-- `ChromaSampling` from the `av_metrics_decoders` crate, as matched in
`yuv_to_rgb_u8`. -/
inductive ChromaSampling where
  | Cs400
  | Cs420
  | Cs422
  | Cs444
deriving DecidableEq

/-- The two matrix-coefficient constants the program uses (`yuv` crate). -/
inductive MatrixCoefficients where
  | BT601
  | BT709
deriving DecidableEq

/-- One plane of a decoded frame: its configured dimensions (`cfg.width`,
`cfg.height`) and the sample accessor `p(x, y)`. -/
structure PlaneModel where
  width : Nat
  height : Nat
  p : Nat → Nat → Nat

/-- A decoded frame: `planes[0]` (luma), `planes[1]` (U), `planes[2]` (V). -/
structure FrameModel where
  plane_y : PlaneModel
  plane_u : PlaneModel
  plane_v : PlaneModel

/-- The stream metadata `yuv_to_rgb_u8` consults. -/
structure VideoDetails where
  bit_depth : Nat
  chroma_sampling : ChromaSampling

/-- Colorimetry selection of `yuv_to_rgb_u8` (src/main.rs lines 275-279):
`if plane_y.cfg.height > 576 { BT709 } else { BT601 }`. -/
def colorspaceFor (height : Nat) : MatrixCoefficients :=
  if height > 576 then MatrixCoefficients.BT709 else MatrixCoefficients.BT601

/-- The chroma-subsampling match of `yuv_to_rgb_u8` (lines 280-298): `none`
for `Cs400` (the Rust arm returns early, there are no chroma shifts), and
the `(ss_x, ss_y)` pair for the other three layouts. -/
def chromaShift : ChromaSampling → Option (Nat × Nat)
  | ChromaSampling.Cs400 => none
  | ChromaSampling.Cs420 => some (1, 1)
  | ChromaSampling.Cs422 => some (0, 1)
  | ChromaSampling.Cs444 => some (0, 0)

/-- `let (chroma_x, chroma_y) = (x >> ss_x, y >> ss_y)` (line 305). -/
def chromaCoord (ss_x ss_y x y : Nat) : Nat × Nat :=
  (x >>> ss_x, y >>> ss_y)

/-- The per-sample bit-depth normalisation of `yuv_to_rgb_u8`: when the Rust
pixel container is `u8` the sample is used as is (`u8::cast_from`), otherwise
it is `(u16::cast_from(v) >> bd_shift) as u8`, i.e. shifted right and
truncated to 8 bits. -/
def sampleAdjust (tIs8 : Bool) (bd_shift v : Nat) : Nat :=
  if tIs8 then v else (v >>> bd_shift) % 256

/-- An interleaved `[r, g, b]` triple from the converter result. -/
def rgbTriple (t : Nat × Nat × Nat) : List Nat :=
  [t.1, t.2.1, t.2.2]

/-- The `Cs400` (Mono) per-pixel body (lines 282-293): the adjusted luma
sample replicated into all three channels. -/
def monoPixel (tIs8 : Bool) (bd_shift : Nat) (plane_y : PlaneModel)
    (x y : Nat) : List Nat :=
  let val := sampleAdjust tIs8 bd_shift (plane_y.p x y)
  [val, val, val]

/-- The non-Mono per-pixel body (lines 304-322): read luma at `(x, y)` and
both chroma samples at `chromaCoord`, adjust all three for bit depth, and
apply the matrix converter. -/
def yuvPixel (toRGB : MatrixCoefficients → Nat → Nat → Nat → Nat × Nat × Nat)
    (tIs8 : Bool) (bd_shift : Nat) (colorspace : MatrixCoefficients)
    (plane_y plane_u plane_v : PlaneModel) (ss_x ss_y x y : Nat) : List Nat :=
  let cc := chromaCoord ss_x ss_y x y
  rgbTriple (toRGB colorspace
    (sampleAdjust tIs8 bd_shift (plane_y.p x y))
    (sampleAdjust tIs8 bd_shift (plane_u.p cc.1 cc.2))
    (sampleAdjust tIs8 bd_shift (plane_v.p cc.1 cc.2)))

/-- `yuv_to_rgb_u8` (src/main.rs lines 268-325).  `toRGB` stands for the
external `RGBConvert::<u8>` matrix conversion; `tIs8` is
`size_of::<T>() == 1` for the generic pixel type `T`.  The output is the
row-major interleaved RGB byte sequence. -/
def yuv_to_rgb_u8 (toRGB : MatrixCoefficients → Nat → Nat → Nat → Nat × Nat × Nat)
    (tIs8 : Bool) (frame : FrameModel) (details : VideoDetails) : List Nat :=
  let plane_y := frame.plane_y
  let bd_shift := details.bit_depth - 8
  let colorspace := colorspaceFor plane_y.height
  match chromaShift details.chroma_sampling with
  | none =>
      (List.range plane_y.height).flatMap fun y =>
        (List.range plane_y.width).flatMap fun x =>
          monoPixel tIs8 bd_shift plane_y x y
  | some ss =>
      (List.range plane_y.height).flatMap fun y =>
        (List.range plane_y.width).flatMap fun x =>
          yuvPixel toRGB tIs8 bd_shift colorspace plane_y frame.plane_u
            frame.plane_v ss.1 ss.2 x y

/-- Modelled from the spec: the decoder collaborator (not under src/)
produces chroma planes with "the subsampled dimensions implied by the chroma
layout" — per §3, for 4:2:0 both chroma axes are halved, for 4:2:2 only the
horizontal axis is halved, for 4:4:4 neither (halving rounds up for odd
sizes); Mono has no chroma planes. -/
def chromaPlaneDims (layout : ChromaSampling) (w h : Nat) : Option (Nat × Nat) :=
  match layout with
  | ChromaSampling.Cs400 => none
  | ChromaSampling.Cs420 => some ((w + 1) / 2, (h + 1) / 2)
  | ChromaSampling.Cs422 => some ((w + 1) / 2, h)
  | ChromaSampling.Cs444 => some (w, h)

/-- A 2×2 4:2:2 test frame whose chroma planes have the half-width,
full-height dimensions 4:2:2 implies. -/
def frame422 : FrameModel :=
  ⟨⟨2, 2, fun x y => 10 * y + x⟩, ⟨1, 2, fun x y => 50 + 10 * y + x⟩,
   ⟨1, 2, fun x y => 80 + 10 * y + x⟩⟩

/-! ### The sequence aggregator `run_metric` -/

/-- The Rust sample container a stream is read with (`u8` or `u16`). -/
inductive SampleWidth where
  | w8
  | w16
deriving DecidableEq

/-- The four-way match on `(details1.bit_depth, details2.bit_depth)` in the
`run_metric` loop (lines 90-187): `(8,8)`, `(8,_)`, `(_,8)`, `(_,_)`
choose `u8`/`u16` readers per stream. -/
def dispatchWidths (bd1 bd2 : Nat) : SampleWidth × SampleWidth :=
  match bd1, bd2 with
  | 8, 8 => (SampleWidth.w8, SampleWidth.w8)
  | 8, _ => (SampleWidth.w8, SampleWidth.w16)
  | _, 8 => (SampleWidth.w16, SampleWidth.w8)
  | _, _ => (SampleWidth.w16, SampleWidth.w16)

/-- The mutable accumulators of the `run_metric` loop: `sum`, `norms`,
`frameno`. -/
structure LoopState where
  sum : ℚ
  norms : List ℚ
  frameno : Nat
deriving DecidableEq

/-- The final printed results: the mean score and, when any norms were
collected, their 75th-percentile statistic. -/
structure AggregateResult where
  mean_score : ℚ
  norm_p75 : Option ℚ
deriving DecidableEq

/-- The `loop` of `run_metric` (lines 89-190) over two frame streams,
modelled as lists.  Each iteration reads one frame from each stream with the
widths given by `dispatchWidths`; if either read returns `None` the loop
breaks, warning (with the current `frameno`) exactly when the other stream
still had a frame.  Otherwise `compare_frame` — abstracted as `cmp` — scores
the pair, the score is added to `sum`, the optional norm is pushed, and
`frameno` is incremented. -/
def run_metric_loop {F G : Type} (cmp : SampleWidth → SampleWidth → F → G → ℚ × Option ℚ)
    (bd1 bd2 : Nat) : List F → List G → LoopState → LoopState × Option Nat
  | [], [], st => (st, none)
  | [], _ :: _, st => (st, some st.frameno)
  | _ :: _, [], st => (st, some st.frameno)
  | f1 :: r1, f2 :: r2, st =>
      let w := dispatchWidths bd1 bd2
      let sn := cmp w.1 w.2 f1 f2
      run_metric_loop cmp bd1 bd2 r1 r2
        ⟨st.sum + sn.1, st.norms ++ sn.2.toList, st.frameno + 1⟩

/-- `run_metric` (lines 77-205), from the loop onwards: runs the loop from
empty accumulators, then finalises — `panic!("No frames read")` when
`frameno == 0`, otherwise the mean `sum / frameno` and, when `norms` is
nonempty, the 75th-percentile of the collected norms (the `average` crate's
estimator is the abstract `quantile75`).  The first component is the
length-mismatch warning (the frame index printed), the second the final
outcome. -/
def run_metric {F G : Type} (cmp : SampleWidth → SampleWidth → F → G → ℚ × Option ℚ)
    (quantile75 : List ℚ → ℚ) (bd1 bd2 : Nat) (frames1 : List F) (frames2 : List G) :
    Option Nat × Except String AggregateResult :=
  let r := run_metric_loop cmp bd1 bd2 frames1 frames2 ⟨0, [], 0⟩
  if r.1.frameno = 0 then
    (r.2, Except.error "No frames read")
  else
    (r.2, Except.ok
      ⟨r.1.sum / (r.1.frameno : ℚ),
       if r.1.norms.isEmpty then none else some (quantile75 r.1.norms)⟩)

/-- The primary scores of a list of frame pairs. -/
def pairScores {F G : Type} (cmp2 : F → G → ℚ × Option ℚ) (pairs : List (F × G)) : List ℚ :=
  pairs.map fun pr => (cmp2 pr.1 pr.2).1

/-- The norm values of those frame pairs that reported one. -/
def pairNorms {F G : Type} (cmp2 : F → G → ℚ × Option ℚ) (pairs : List (F × G)) : List ℚ :=
  pairs.filterMap fun pr => (cmp2 pr.1 pr.2).2

/-- The mean score of a run outcome, when the run did not fail. -/
def meanOf (r : Except String AggregateResult) : Option ℚ :=
  match r with
  | Except.ok a => some a.mean_score
  | Except.error _ => none

/-- The emitted 75th-percentile norm statistic, when the run did not fail and
the statistic was printed. -/
def normP75Of (r : Except String AggregateResult) : Option ℚ :=
  match r with
  | Except.ok a => a.norm_p75
  | Except.error _ => none

/-! ### The filesystem behaviour of `compare_frame` -/

/-- Creation of a file on a filesystem modelled as a list of existing
paths. -/
def fsCreate (p : String) (fs : List String) : List String :=
  if p ∈ fs then fs else p :: fs

/-- `fs::remove_file`. -/
def fsRemove (p : String) (fs : List String) : List String :=
  fs.filter fun q => q != p

/-- Rust's `str::split_once`: split at the first occurrence of `sep`,
`none` when `sep` does not occur. -/
def split_once (sep s : String) : Option (String × String) :=
  match s.splitOn sep with
  | [] => none
  | [_] => none
  | a :: rest => some (a, String.intercalate sep rest)

/-- The outcome of one `compare_frame` call: a returned `(score, norm)`
pair, or a Rust panic from one of its `unwrap`s. -/
inductive CompareExit where
  | finished (score : ℚ) (norm : Option ℚ)
  | panicked
deriving DecidableEq

/-- The stdout-parsing tail of `compare_frame` (lines 252-265), which runs
after both `fs::remove_file` calls: the first non-empty line parsed as the
score (panicking when absent or non-numeric), then the optional `3-norm`
line split on `": "` and its value parsed (each `unwrap` a panic).  `parse`
stands for Rust's `str::parse::<f64>`. -/
def parse_compare_output (parse : String → Option ℚ) (lines : List String) : CompareExit :=
  match (lines.find? fun l => !l.isEmpty) with
  | none => CompareExit.panicked
  | some line =>
    match parse line.trim with
    | none => CompareExit.panicked
    | some score =>
      match (lines.find? fun l => l.startsWith "3-norm") with
      | none => CompareExit.finished score none
      | some nline =>
        match split_once ": " nline with
        | none => CompareExit.panicked
        | some pr =>
          match parse pr.2 with
          | none => CompareExit.panicked
          | some n => CompareExit.finished score (some n)

/-- The filesystem behaviour of `compare_frame` (lines 207-266).  Both
temporary artifacts are created with `.keep()` (so they persist; no RAII
cleanup) and the images are written; then the external tool is launched —
`launch` is `none` when `Command::output()` fails, in which case the
`.unwrap()` on line 247 panics with both artifacts still on disk, and
`some stdoutLines` when the process ran.  After a successful launch both
artifacts are removed (lines 249-250) before the output is parsed. -/
def compare_frame_fs (parse : String → Option ℚ) (path1 path2 : String)
    (launch : Option (List String)) (fs : List String) :
    List String × CompareExit :=
  let fs2 := fsCreate path2 (fsCreate path1 fs)
  match launch with
  | none => (fs2, CompareExit.panicked)
  | some lines =>
      (fsRemove path2 (fsRemove path1 fs2), parse_compare_output parse lines)

/-! ### Concrete instances used by witnesses -/

/-- A matrix converter that returns its three inputs unchanged. -/
def toRGBId : MatrixCoefficients → Nat → Nat → Nat → Nat × Nat × Nat :=
  fun _ y u v => (y, u, v)

/-- A 4×4 test frame with distinct plane accessors. -/
def frameEx : FrameModel :=
  ⟨⟨4, 4, fun x y => 16 * y + x⟩, ⟨2, 2, fun x y => 100 + 10 * y + x⟩,
   ⟨2, 2, fun x y => 200 + 10 * y + x⟩⟩

/-- A comparison function whose score is the first frame's value and which
reports no norm. -/
def cmpScoreFst : SampleWidth → SampleWidth → ℚ → ℚ → ℚ × Option ℚ :=
  fun _ _ a _ => (a, none)

/-- A comparison function that reports the second frame's value as a norm
when it is nonzero. -/
def cmpWithNorm : SampleWidth → SampleWidth → ℚ → ℚ → ℚ × Option ℚ :=
  fun _ _ a b => (a, if b = 0 then none else some b)

/-- A trivial quantile estimator instance. -/
def qHead : List ℚ → ℚ :=
  fun l => l.headD 0

/-- A matrix converter that ignores its inputs, used to show Mono conversion
does not consult the matrix. -/
def toRGBZero : MatrixCoefficients → Nat → Nat → Nat → Nat × Nat × Nat :=
  fun _ _ _ _ => (0, 0, 0)

/-! ### Indexing helpers for the flattened raster -/

lemma flatMap_range_length (f : Nat → List Nat) (k w : Nat)
    (hf : ∀ z, z < w → (f z).length = k) :
    ((List.range w).flatMap f).length = w * k := by
  induction w with
  | zero => simp
  | succ n ih =>
      rw [List.range_succ, List.flatMap_append]
      simp only [List.length_append, ih fun z hz => hf z (Nat.lt_succ_of_lt hz)]
      simp [hf n (Nat.lt_succ_self n), Nat.succ_mul]

lemma flatMap_range_getElem (f : Nat → List Nat) (k w x i : Nat)
    (hf : ∀ z, z < w → (f z).length = k) (hx : x < w) (hi : i < k) :
    ((List.range w).flatMap f)[k * x + i]? = (f x)[i]? := by
  induction w with
  | zero => omega
  | succ n ih =>
      rw [List.range_succ, List.flatMap_append]
      rcases Nat.lt_or_ge x n with hxn | hxn
      · rw [List.getElem?_append_left]
        · exact ih (fun z hz => hf z (Nat.lt_succ_of_lt hz)) hxn
        · rw [flatMap_range_length f k n fun z hz => hf z (Nat.lt_succ_of_lt hz)]
          have h1 : k * x + i < k * (x + 1) := by
            rw [Nat.mul_succ]; exact Nat.add_lt_add_left hi _
          have h2 : k * (x + 1) ≤ k * n := Nat.mul_le_mul_left k hxn
          calc k * x + i < k * (x + 1) := h1
            _ ≤ k * n := h2
            _ = n * k := Nat.mul_comm k n
      · have hx' : x = n := by omega
        subst hx'
        have hlen : ((List.range x).flatMap f).length = x * k :=
          flatMap_range_length f k x fun z hz => hf z (Nat.lt_succ_of_lt hz)
        rw [List.getElem?_append_right]
        · rw [hlen]
          have hidx : k * x + i - x * k = i := by
            rw [Nat.mul_comm k x, Nat.add_sub_cancel_left]
          rw [hidx]
          simp
        · rw [hlen, Nat.mul_comm x k]
          exact Nat.le_add_right _ _

lemma pixel_getElem (pix : Nat → Nat → List Nat) (w h x y c : Nat)
    (hpix : ∀ a b, (pix a b).length = 3)
    (hx : x < w) (hy : y < h) (hc : c < 3) :
    ((List.range h).flatMap fun b => (List.range w).flatMap fun a => pix a b)[3 * (y * w + x) + c]? =
      (pix x y)[c]? := by
  have hrow : ∀ b, b < h → ((List.range w).flatMap fun a => pix a b).length = w * 3 :=
    fun b _ => flatMap_range_length _ 3 w fun z _ => hpix z b
  have hidx : 3 * (y * w + x) + c = (w * 3) * y + (3 * x + c) := by ring
  have hin : 3 * x + c < w * 3 := by omega
  rw [hidx,
    flatMap_range_getElem (fun b => (List.range w).flatMap fun a => pix a b)
      (w * 3) h y (3 * x + c) hrow hy hin]
  exact flatMap_range_getElem (fun a => pix a y) 3 w x c (fun z _ => hpix z y) hx hc

/-! ### Characterisation of the aggregator loop -/

lemma run_metric_loop_eq {F G : Type}
    (cmp : SampleWidth → SampleWidth → F → G → ℚ × Option ℚ) (bd1 bd2 : Nat)
    (l1 : List F) :
    ∀ (l2 : List G) (st : LoopState),
      run_metric_loop cmp bd1 bd2 l1 l2 st =
        (⟨st.sum + (pairScores (cmp (dispatchWidths bd1 bd2).1 (dispatchWidths bd1 bd2).2)
              (l1.zip l2)).sum,
          st.norms ++ pairNorms (cmp (dispatchWidths bd1 bd2).1 (dispatchWidths bd1 bd2).2)
              (l1.zip l2),
          st.frameno + (l1.zip l2).length⟩,
         if l1.length = l2.length then none
         else some (st.frameno + (l1.zip l2).length)) := by
  induction l1 with
  | nil =>
      intro l2 st
      cases l2 <;> simp [run_metric_loop, pairScores, pairNorms]
  | cons f r1 ih =>
      intro l2 st
      cases l2 with
      | nil => simp [run_metric_loop, pairScores, pairNorms]
      | cons g r2 =>
          simp only [run_metric_loop]
          rw [ih]
          simp only [List.zip_cons_cons, pairScores, pairNorms, List.map_cons,
            List.sum_cons, List.filterMap_cons, List.length_cons]
          cases hc : (cmp (dispatchWidths bd1 bd2).1 (dispatchWidths bd1 bd2).2 f g).2 <;>
            simp [hc, Prod.ext_iff, LoopState.mk.injEq, List.append_assoc,
              add_assoc, add_comm, add_left_comm, add_left_inj]

/-- `run_metric` in closed form: the warning, the no-frames failure, the
mean, and the norm statistic, all as functions of the zipped common prefix
of the two streams. -/
lemma run_metric_eq {F G : Type}
    (cmp : SampleWidth → SampleWidth → F → G → ℚ × Option ℚ)
    (q : List ℚ → ℚ) (bd1 bd2 : Nat) (l1 : List F) (l2 : List G) :
    run_metric cmp q bd1 bd2 l1 l2 =
      ((if l1.length = l2.length then none else some ((l1.zip l2).length)),
       if (l1.zip l2).length = 0 then Except.error "No frames read"
       else Except.ok
         ⟨(pairScores (cmp (dispatchWidths bd1 bd2).1 (dispatchWidths bd1 bd2).2)
              (l1.zip l2)).sum / ((l1.zip l2).length : ℚ),
          if (pairNorms (cmp (dispatchWidths bd1 bd2).1 (dispatchWidths bd1 bd2).2)
              (l1.zip l2)).isEmpty then none
          else some (q (pairNorms (cmp (dispatchWidths bd1 bd2).1
              (dispatchWidths bd1 bd2).2) (l1.zip l2)))⟩) := by
  unfold run_metric
  rw [run_metric_loop_eq]
  simp only [Nat.zero_add, List.nil_append, zero_add]
  by_cases h0 : (l1.zip l2).length = 0
  · simp [h0]
  · rw [if_neg h0, if_neg h0]

/-! ### Claim C1 — temporary artifacts of `compare_frame` -/

/-- Claim C1 counterexample: when launching the external tool fails
(`Command::output()` returns an error), the `unwrap` on src/main.rs line 247
panics before the `fs::remove_file` calls on lines 249-250 run, so both
temporary artifacts are still on disk after the call — the claimed
every-exit-path removal guarantee fails on the process-launch-failure
path. -/
theorem claim1_leak_on_launch_failure :
    (compare_frame_fs (fun _ => none) "a.png" "b.png" none []).2 = CompareExit.panicked ∧
    "a.png" ∈ (compare_frame_fs (fun _ => none) "a.png" "b.png" none []).1 ∧
    "b.png" ∈ (compare_frame_fs (fun _ => none) "a.png" "b.png" none []).1 := by
  refine ⟨rfl, ?_, ?_⟩ <;> simp [compare_frame_fs, fsCreate]

/-- Claim C1 (amended): whenever the external tool process launches (whether
or not its output subsequently parses), both temporary artifacts are removed
before `compare_frame` returns or panics; only the launch-failure path leaks
them.  Removal happens on lines 249-250, before any output parsing. -/
theorem claim1_artifacts_removed_when_tool_runs (parse : String → Option ℚ)
    (path1 path2 : String) (lines : List String) (fs : List String) :
    path1 ∉ (compare_frame_fs parse path1 path2 (some lines) fs).1 ∧
    path2 ∉ (compare_frame_fs parse path1 path2 (some lines) fs).1 := by
  simp [compare_frame_fs, fsRemove, List.mem_filter]

/-! ### Claims C4, C5, C8, C9 — the sequence aggregator -/

/-- Claim C4: the run fails with the no-frames panic exactly when zero frame
pairs were processed (the zipped common prefix is empty, which covers a
length mismatch before any pair is scored); otherwise the mean score is the
sum of the primary scores divided by the number of scored pairs — in
particular scores `{1, 2, 3}` give mean exactly `2`. -/
theorem claim4_no_frames_and_mean {F G : Type}
    (cmp : SampleWidth → SampleWidth → F → G → ℚ × Option ℚ)
    (q : List ℚ → ℚ) (bd1 bd2 : Nat) (l1 : List F) (l2 : List G) :
    ((run_metric cmp q bd1 bd2 l1 l2).2 = Except.error "No frames read" ↔
      (l1.zip l2).length = 0) ∧
    ((l1.zip l2).length ≠ 0 →
      meanOf (run_metric cmp q bd1 bd2 l1 l2).2 =
        some ((pairScores (cmp (dispatchWidths bd1 bd2).1 (dispatchWidths bd1 bd2).2)
          (l1.zip l2)).sum / ((l1.zip l2).length : ℚ))) ∧
    meanOf (run_metric cmpScoreFst qHead 8 8 [(1 : ℚ), 2, 3] [(0 : ℚ), 0, 0]).2 = some 2 := by
  refine ⟨?_, ?_, ?_⟩
  · rw [run_metric_eq]
    by_cases h0 : (l1.zip l2).length = 0
    · simp [h0]
    · simp [h0]
      tauto
  · intro h0
    rw [run_metric_eq, if_neg h0]
    simp [meanOf]
  · rw [run_metric_eq]
    norm_num [meanOf, pairScores, cmpScoreFst, dispatchWidths]

/-- Claim C4 witness: three scored pairs with scores `1, 2, 3`. -/
theorem claim4_no_frames_and_mean_witness :
    ([(1 : ℚ), 2, 3].zip [(0 : ℚ), 0, 0]).length ≠ 0 ∧
    meanOf (run_metric cmpScoreFst qHead 8 8 [(1 : ℚ), 2, 3] [(0 : ℚ), 0, 0]).2 =
      some ((pairScores (cmpScoreFst (dispatchWidths 8 8).1 (dispatchWidths 8 8).2)
        ([(1 : ℚ), 2, 3].zip [(0 : ℚ), 0, 0])).sum /
        (([(1 : ℚ), 2, 3].zip [(0 : ℚ), 0, 0]).length : ℚ)) :=
  ⟨by decide,
   (claim4_no_frames_and_mean cmpScoreFst qHead 8 8 [(1 : ℚ), 2, 3] [(0 : ℚ), 0, 0]).2.1
     (by decide)⟩

/-- Claim C5: when one stream has 5 frames and the other 3, exactly the 3
aligned pairs are scored, the non-fatal length-mismatch warning cites frame
index 3, and the mean is still produced over those 3 pairs. -/
theorem claim5_length_mismatch {F G : Type}
    (cmp : SampleWidth → SampleWidth → F → G → ℚ × Option ℚ)
    (q : List ℚ → ℚ) (bd1 bd2 : Nat) (l1 : List F) (l2 : List G)
    (h1 : l1.length = 5) (h2 : l2.length = 3) :
    (run_metric cmp q bd1 bd2 l1 l2).1 = some 3 ∧
    (l1.zip l2).length = 3 ∧
    meanOf (run_metric cmp q bd1 bd2 l1 l2).2 =
      some ((pairScores (cmp (dispatchWidths bd1 bd2).1 (dispatchWidths bd1 bd2).2)
        (l1.zip l2)).sum / (3 : ℚ)) := by
  have hz : (l1.zip l2).length = 3 := by
    rw [List.length_zip, h1, h2]; decide
  have h0 : ¬((l1.zip l2).length = 0) := by
    rw [hz]; decide
  refine ⟨?_, hz, ?_⟩
  · rw [run_metric_eq]
    simp [h1, h2, hz]
  · rw [run_metric_eq]
    simp [meanOf, h0, hz]

/-- Claim C5 witness at concrete 5- and 3-frame streams. -/
theorem claim5_length_mismatch_witness :
    (run_metric cmpScoreFst qHead 8 8 [(0 : ℚ), 0, 0, 0, 0] [(0 : ℚ), 0, 0]).1 = some 3 ∧
    ([(0 : ℚ), 0, 0, 0, 0].zip [(0 : ℚ), 0, 0]).length = 3 ∧
    meanOf (run_metric cmpScoreFst qHead 8 8 [(0 : ℚ), 0, 0, 0, 0] [(0 : ℚ), 0, 0]).2 =
      some ((pairScores (cmpScoreFst (dispatchWidths 8 8).1 (dispatchWidths 8 8).2)
        ([(0 : ℚ), 0, 0, 0, 0].zip [(0 : ℚ), 0, 0])).sum / (3 : ℚ)) :=
  claim5_length_mismatch cmpScoreFst qHead 8 8 _ _ (by decide) (by decide)

/-- Claim C8 counterexample: with both streams declaring bit depth 14 —
outside `{8, 10, 12, 16}` — `run_metric` does not fail with any
configuration error: the four-way match simply dispatches both streams to
the 16-bit reader and the run proceeds to score frames, here returning the
score of the single pair. -/
theorem claim8_bit_depth_14_scores_anyway :
    dispatchWidths 14 14 = (SampleWidth.w16, SampleWidth.w16) ∧
    (run_metric cmpScoreFst qHead 14 14 [(1 : ℚ)] [(0 : ℚ)]).2 =
      Except.ok ⟨1, none⟩ := by
  refine ⟨rfl, ?_⟩
  rw [run_metric_eq]
  norm_num [pairScores, pairNorms, cmpScoreFst, dispatchWidths]

/-- Claim C8 (amended): `run_metric` performs no bit-depth validation at
all.  For every pair of declared bit depths — supported or not — the run
proceeds to convert and score frames and succeeds whenever at least one
frame pair is available; depth 8 streams are read as `u8` and every other
depth as `u16`. -/
theorem claim8_no_bit_depth_validation {F G : Type}
    (cmp : SampleWidth → SampleWidth → F → G → ℚ × Option ℚ)
    (q : List ℚ → ℚ) (bd1 bd2 : Nat) (l1 : List F) (l2 : List G)
    (h : (l1.zip l2).length ≠ 0) :
    ∃ out, (run_metric cmp q bd1 bd2 l1 l2).2 = Except.ok out := by
  rw [run_metric_eq, if_neg h]
  exact ⟨_, rfl⟩

/-- Claim C8 (amended) witness at bit depth 14. -/
theorem claim8_no_bit_depth_validation_witness :
    ∃ out, (run_metric cmpScoreFst qHead 14 14 [(1 : ℚ)] [(0 : ℚ)]).2 = Except.ok out :=
  claim8_no_bit_depth_validation cmpScoreFst qHead 14 14 _ _ (by decide)

/-- Claim C9: the emitted 75th-percentile statistic is the estimator applied
to exactly the norm values of the frame pairs that reported one
(`pairNorms`, the others contribute nothing), and it is omitted from the
output entirely when no pair produced a norm. -/
theorem claim9_norm_aggregation {F G : Type}
    (cmp : SampleWidth → SampleWidth → F → G → ℚ × Option ℚ)
    (q : List ℚ → ℚ) (bd1 bd2 : Nat) (l1 : List F) (l2 : List G)
    (h : (l1.zip l2).length ≠ 0) :
    normP75Of (run_metric cmp q bd1 bd2 l1 l2).2 =
      if (pairNorms (cmp (dispatchWidths bd1 bd2).1 (dispatchWidths bd1 bd2).2)
          (l1.zip l2)).isEmpty then none
      else some (q (pairNorms (cmp (dispatchWidths bd1 bd2).1 (dispatchWidths bd1 bd2).2)
          (l1.zip l2))) := by
  rw [run_metric_eq, if_neg h]
  simp [normP75Of]

/-- Claim C9 witness: two pairs of which only the second reports a norm. -/
theorem claim9_norm_aggregation_witness :
    normP75Of (run_metric cmpWithNorm qHead 8 8 [(1 : ℚ), 1] [(0 : ℚ), 5]).2 =
      if (pairNorms (cmpWithNorm (dispatchWidths 8 8).1 (dispatchWidths 8 8).2)
          ([(1 : ℚ), 1].zip [(0 : ℚ), 5])).isEmpty then none
      else some (qHead (pairNorms (cmpWithNorm (dispatchWidths 8 8).1 (dispatchWidths 8 8).2)
          ([(1 : ℚ), 1].zip [(0 : ℚ), 5]))) :=
  claim9_norm_aggregation cmpWithNorm qHead 8 8 _ _ (by decide)

/-! ### Converter helper lemmas -/

/-- Under the `run_metric` dispatch (`u8` container exactly for declared bit
depth 8) and with samples in range for the declared depth, the bit-depth
normalisation is exactly a right shift by `bit_depth − 8` — a shift by zero,
i.e. the identity, for 8-bit streams. -/
lemma sampleAdjust_eq_shiftRight (bd v : Nat) (hbd : 8 ≤ bd) (hv : v < 2 ^ bd) :
    sampleAdjust (bd == 8) (bd - 8) v = v >>> (bd - 8) := by
  by_cases h8 : bd = 8
  · subst h8
    simp [sampleAdjust]
  · have hne : (bd == 8) = false := by simp [h8]
    rw [sampleAdjust, hne]
    simp only [Bool.false_eq_true, if_false]
    apply Nat.mod_eq_of_lt
    rw [Nat.shiftRight_eq_div_pow]
    have hsplit : 2 ^ (bd - 8) * 2 ^ 8 = 2 ^ bd := by
      rw [← pow_add, Nat.sub_add_cancel hbd]
    have h2 : v < 2 ^ (bd - 8) * 2 ^ 8 := by rw [hsplit]; exact hv
    have h3 : v / 2 ^ (bd - 8) < 2 ^ 8 := Nat.div_lt_of_lt_mul h2
    norm_num at h3
    exact h3

/-- The interleaved output entry at channel `c` of pixel `(x, y)` of a Mono
frame is the bit-depth-adjusted luma sample, for each of the three
channels. -/
lemma mono_getElem (toRGB : MatrixCoefficients → Nat → Nat → Nat → Nat × Nat × Nat)
    (tIs8 : Bool) (bd : Nat) (frame : FrameModel) (x y c : Nat)
    (hx : x < frame.plane_y.width) (hy : y < frame.plane_y.height) (hc : c < 3) :
    (yuv_to_rgb_u8 toRGB tIs8 frame
        ⟨bd, ChromaSampling.Cs400⟩)[3 * (y * frame.plane_y.width + x) + c]? =
      some (sampleAdjust tIs8 (bd - 8) (frame.plane_y.p x y)) := by
  have h := pixel_getElem (fun a b => monoPixel tIs8 (bd - 8) frame.plane_y a b)
      frame.plane_y.width frame.plane_y.height x y c
      (fun a b => by simp [monoPixel]) hx hy hc
  have h2 : (monoPixel tIs8 (bd - 8) frame.plane_y x y)[c]? =
      some (sampleAdjust tIs8 (bd - 8) (frame.plane_y.p x y)) := by
    interval_cases c <;> rfl
  exact h.trans h2

/-- The interleaved output entry at channel `c` of pixel `(x, y)` of a
non-Mono frame is channel `c` of the matrix conversion of the
bit-depth-adjusted luma sample at `(x, y)` and chroma samples at
`(x >>> ss_x, y >>> ss_y)`, where `(ss_x, ss_y)` is the layout's shift
pair. -/
lemma yuv_getElem (toRGB : MatrixCoefficients → Nat → Nat → Nat → Nat × Nat × Nat)
    (tIs8 : Bool) (bd : Nat) (frame : FrameModel) (layout : ChromaSampling)
    (ss_x ss_y : Nat) (hl : chromaShift layout = some (ss_x, ss_y)) (x y c : Nat)
    (hx : x < frame.plane_y.width) (hy : y < frame.plane_y.height) (hc : c < 3) :
    (yuv_to_rgb_u8 toRGB tIs8 frame ⟨bd, layout⟩)[3 * (y * frame.plane_y.width + x) + c]? =
      (rgbTriple (toRGB (colorspaceFor frame.plane_y.height)
        (sampleAdjust tIs8 (bd - 8) (frame.plane_y.p x y))
        (sampleAdjust tIs8 (bd - 8) (frame.plane_u.p (x >>> ss_x) (y >>> ss_y)))
        (sampleAdjust tIs8 (bd - 8)
          (frame.plane_v.p (x >>> ss_x) (y >>> ss_y)))))[c]? := by
  have h := pixel_getElem
      (fun a b => yuvPixel toRGB tIs8 (bd - 8) (colorspaceFor frame.plane_y.height)
        frame.plane_y frame.plane_u frame.plane_v ss_x ss_y a b)
      frame.plane_y.width frame.plane_y.height x y c
      (fun a b => by simp [yuvPixel, rgbTriple, chromaCoord]) hx hy hc
  cases layout with
  | Cs400 => simp [chromaShift] at hl
  | Cs420 =>
      obtain ⟨h1, h2⟩ : ss_x = 1 ∧ ss_y = 1 := by
        simp only [chromaShift, Option.some.injEq, Prod.mk.injEq] at hl
        exact ⟨hl.1.symm, hl.2.symm⟩
      subst h1; subst h2
      exact h
  | Cs422 =>
      obtain ⟨h1, h2⟩ : ss_x = 0 ∧ ss_y = 1 := by
        simp only [chromaShift, Option.some.injEq, Prod.mk.injEq] at hl
        exact ⟨hl.1.symm, hl.2.symm⟩
      subst h1; subst h2
      exact h
  | Cs444 =>
      obtain ⟨h1, h2⟩ : ss_x = 0 ∧ ss_y = 0 := by
        simp only [chromaShift, Option.some.injEq, Prod.mk.injEq] at hl
        exact ⟨hl.1.symm, hl.2.symm⟩
      subst h1; subst h2
      exact h

/-! ### Claims C2, C3, C6, C7, C10 — the colorimetric converter -/

/-- Claim C2: for every non-Mono frame and every luma coordinate
`(x, y)` in bounds, the converter's output pixel is the matrix conversion of
the luma sample at `(x, y)` paired with the chroma samples read from
`(x >>> shiftX, y >>> shiftY)`, with shifts `(1,1)` for 4:2:0, `(0,1)` for
4:2:2 and `(0,0)` for 4:4:4. -/
theorem claim2_chroma_coordinates
    (toRGB : MatrixCoefficients → Nat → Nat → Nat → Nat × Nat × Nat)
    (tIs8 : Bool) (bd : Nat) (frame : FrameModel) (layout : ChromaSampling)
    (sx sy : Nat)
    (hl : (layout = ChromaSampling.Cs420 ∧ sx = 1 ∧ sy = 1) ∨
          (layout = ChromaSampling.Cs422 ∧ sx = 0 ∧ sy = 1) ∨
          (layout = ChromaSampling.Cs444 ∧ sx = 0 ∧ sy = 0))
    (x y c : Nat) (hx : x < frame.plane_y.width) (hy : y < frame.plane_y.height)
    (hc : c < 3) :
    (yuv_to_rgb_u8 toRGB tIs8 frame ⟨bd, layout⟩)[3 * (y * frame.plane_y.width + x) + c]? =
      (rgbTriple (toRGB (colorspaceFor frame.plane_y.height)
        (sampleAdjust tIs8 (bd - 8) (frame.plane_y.p x y))
        (sampleAdjust tIs8 (bd - 8) (frame.plane_u.p (x >>> sx) (y >>> sy)))
        (sampleAdjust tIs8 (bd - 8) (frame.plane_v.p (x >>> sx) (y >>> sy)))))[c]? := by
  rcases hl with ⟨h, hsx, hsy⟩ | ⟨h, hsx, hsy⟩ | ⟨h, hsx, hsy⟩
  · subst h; subst hsx; subst hsy
    exact yuv_getElem toRGB tIs8 bd frame ChromaSampling.Cs420 1 1 rfl x y c hx hy hc
  · subst h; subst hsx; subst hsy
    exact yuv_getElem toRGB tIs8 bd frame ChromaSampling.Cs422 0 1 rfl x y c hx hy hc
  · subst h; subst hsx; subst hsy
    exact yuv_getElem toRGB tIs8 bd frame ChromaSampling.Cs444 0 0 rfl x y c hx hy hc

/-- Claim C2 witness at a concrete 4:2:0 frame and pixel `(1, 1)`. -/
theorem claim2_chroma_coordinates_witness :
    (yuv_to_rgb_u8 toRGBId true frameEx
        ⟨8, ChromaSampling.Cs420⟩)[3 * (1 * frameEx.plane_y.width + 1) + 0]? =
      (rgbTriple (toRGBId (colorspaceFor frameEx.plane_y.height)
        (sampleAdjust true (8 - 8) (frameEx.plane_y.p 1 1))
        (sampleAdjust true (8 - 8) (frameEx.plane_u.p (1 >>> 1) (1 >>> 1)))
        (sampleAdjust true (8 - 8) (frameEx.plane_v.p (1 >>> 1) (1 >>> 1)))))[0]? :=
  claim2_chroma_coordinates toRGBId true 8 frameEx ChromaSampling.Cs420 1 1
    (Or.inl ⟨rfl, rfl, rfl⟩) 1 1 0 (by decide) (by decide) (by decide)

/-- Claim C3: the converter selects the HD matrix (BT.709) exactly when the
frame height is strictly greater than 576, the SD matrix (BT.601) otherwise;
height exactly 576 selects SD. -/
theorem claim3_colorspace_selection (h : Nat) :
    (colorspaceFor h = MatrixCoefficients.BT709 ↔ 576 < h) ∧
    colorspaceFor 576 = MatrixCoefficients.BT601 := by
  refine ⟨?_, by decide⟩
  by_cases hh : 576 < h
  · simp [colorspaceFor, hh]
  · simp [colorspaceFor, hh]

/-- Claim C3 witness at heights 720 and 576. -/
theorem claim3_colorspace_selection_witness :
    colorspaceFor 720 = MatrixCoefficients.BT709 ∧
    colorspaceFor 576 = MatrixCoefficients.BT601 :=
  ⟨(claim3_colorspace_selection 720).1.mpr (by decide),
   (claim3_colorspace_selection 576).2⟩

/-- Claim C6: for a Mono frame read with the `run_metric` dispatch
(`u8` container exactly when the declared depth is 8) and samples within the
declared bit depth, every channel of every output pixel equals the luma
sample right-shifted by `bit_depth − 8` (a zero shift at 8 bits), and the
whole output is independent of the matrix converter — the Mono branch never
invokes it. -/
theorem claim6_mono_replication
    (toRGB toRGB2 : MatrixCoefficients → Nat → Nat → Nat → Nat × Nat × Nat)
    (bd : Nat) (hbd : 8 ≤ bd) (frame : FrameModel) (x y c : Nat)
    (hx : x < frame.plane_y.width) (hy : y < frame.plane_y.height) (hc : c < 3)
    (hY : frame.plane_y.p x y < 2 ^ bd) :
    (yuv_to_rgb_u8 toRGB (bd == 8) frame
        ⟨bd, ChromaSampling.Cs400⟩)[3 * (y * frame.plane_y.width + x) + c]? =
      some (frame.plane_y.p x y >>> (bd - 8)) ∧
    yuv_to_rgb_u8 toRGB (bd == 8) frame ⟨bd, ChromaSampling.Cs400⟩ =
      yuv_to_rgb_u8 toRGB2 (bd == 8) frame ⟨bd, ChromaSampling.Cs400⟩ := by
  refine ⟨?_, rfl⟩
  rw [mono_getElem toRGB _ bd frame x y c hx hy hc,
    sampleAdjust_eq_shiftRight bd _ hbd hY]

/-- Claim C6 witness at a 10-bit Mono frame and pixel `(1, 1)`. -/
theorem claim6_mono_replication_witness :
    (yuv_to_rgb_u8 toRGBId (10 == 8) frameEx
        ⟨10, ChromaSampling.Cs400⟩)[3 * (1 * frameEx.plane_y.width + 1) + 2]? =
      some (frameEx.plane_y.p 1 1 >>> (10 - 8)) ∧
    yuv_to_rgb_u8 toRGBId (10 == 8) frameEx ⟨10, ChromaSampling.Cs400⟩ =
      yuv_to_rgb_u8 toRGBZero (10 == 8) frameEx ⟨10, ChromaSampling.Cs400⟩ :=
  claim6_mono_replication toRGBId toRGBZero 10 (by decide) frameEx 1 1 2
    (by decide) (by decide) (by decide) (by decide)

/-- Claim C7: in the narrow 8-bit conversion as dispatched by `run_metric`
(`u8` container exactly for declared depth 8), every luma and chroma sample
fed to the matrix conversion is the plane sample right-shifted by exactly
`bit_depth − 8`; for depth 8 the shift is zero, i.e. the samples pass
through unshifted. -/
theorem claim7_narrow_bit_depth_shift
    (toRGB : MatrixCoefficients → Nat → Nat → Nat → Nat × Nat × Nat)
    (bd : Nat) (hbd : 8 ≤ bd) (frame : FrameModel) (layout : ChromaSampling)
    (ss_x ss_y : Nat) (hl : chromaShift layout = some (ss_x, ss_y)) (x y c : Nat)
    (hx : x < frame.plane_y.width) (hy : y < frame.plane_y.height) (hc : c < 3)
    (hY : frame.plane_y.p x y < 2 ^ bd)
    (hU : frame.plane_u.p (x >>> ss_x) (y >>> ss_y) < 2 ^ bd)
    (hV : frame.plane_v.p (x >>> ss_x) (y >>> ss_y) < 2 ^ bd) :
    (yuv_to_rgb_u8 toRGB (bd == 8) frame
        ⟨bd, layout⟩)[3 * (y * frame.plane_y.width + x) + c]? =
      (rgbTriple (toRGB (colorspaceFor frame.plane_y.height)
        (frame.plane_y.p x y >>> (bd - 8))
        (frame.plane_u.p (x >>> ss_x) (y >>> ss_y) >>> (bd - 8))
        (frame.plane_v.p (x >>> ss_x) (y >>> ss_y) >>> (bd - 8))))[c]? := by
  rw [yuv_getElem toRGB (bd == 8) bd frame layout ss_x ss_y hl x y c hx hy hc,
    sampleAdjust_eq_shiftRight bd _ hbd hY, sampleAdjust_eq_shiftRight bd _ hbd hU,
    sampleAdjust_eq_shiftRight bd _ hbd hV]

/-- Claim C7 witness at a 10-bit 4:4:4 frame and pixel `(1, 0)`. -/
theorem claim7_narrow_bit_depth_shift_witness :
    (yuv_to_rgb_u8 toRGBId (10 == 8) frameEx
        ⟨10, ChromaSampling.Cs444⟩)[3 * (0 * frameEx.plane_y.width + 1) + 1]? =
      (rgbTriple (toRGBId (colorspaceFor frameEx.plane_y.height)
        (frameEx.plane_y.p 1 0 >>> (10 - 8))
        (frameEx.plane_u.p (1 >>> 0) (0 >>> 0) >>> (10 - 8))
        (frameEx.plane_v.p (1 >>> 0) (0 >>> 0) >>> (10 - 8))))[1]? :=
  claim7_narrow_bit_depth_shift toRGBId 10 (by decide) frameEx ChromaSampling.Cs444
    0 0 rfl 1 0 1 (by decide) (by decide) (by decide) (by decide) (by decide) (by decide)

/-- Claim C10 (code bug): for 4:2:2 the converter's shift pair is `(0, 1)`
(src/main.rs:296), so chroma is read at `(x, y >>> 1)` — the horizontal
coordinate unshifted — against the half-width, full-height plane that
4:2:2 implies.  Evaluated at the failing input, a 2×2 4:2:2 frame at luma
coordinate `(1, 0)`: the U channel of output pixel `(1, 0)` is the U-plane
sample at column 1, while that plane's width is 1, so the access lies
outside the plane and the claimed in-bounds property fails.  (The correct
4:2:2 pair, per the plane-dimension rule, would be `(1, 0)`.) -/
theorem claim10_cs422_access_out_of_bounds :
    chromaShift ChromaSampling.Cs422 = some (0, 1) ∧
    (yuv_to_rgb_u8 toRGBId true frame422
        ⟨8, ChromaSampling.Cs422⟩)[3 * (0 * frame422.plane_y.width + 1) + 1]? =
      some (frame422.plane_u.p 1 0) ∧
    chromaPlaneDims ChromaSampling.Cs422 frame422.plane_y.width frame422.plane_y.height =
      some (frame422.plane_u.width, frame422.plane_u.height) ∧
    ¬ 1 < frame422.plane_u.width := by
  decide

end ButterVideo
